import Mathlib

/-!
Shallow embedding of the authentication/session core of the msp-inventory-system
repository: the `AuthService` class (user store, session store, login state
machine) and the parts of `SecurityService` it uses (password validation,
username/email validation, the rate limiter created by `createRateLimiter`).

Timestamps are naturals counting milliseconds (the JavaScript `Date.now()`
value).  Every operation of `AuthService` that reads the clock receives the
current time `now` as an explicit argument.
-/

/-- The three user roles of the system (`admin`, `technician`, `readonly`). -/
inductive Role where
  | admin
  | technician
  | readonly
deriving Repr, DecidableEq

/-- A stored user record (`StoredUser` in AuthService.ts).  `createdAt`,
`lastLogin` and `lockedUntil` are millisecond timestamps. -/
structure StoredUser where
  id : Nat
  username : String
  email : Option String
  passwordHash : String
  role : Role
  assignedClients : Option (List String)
  createdAt : Nat
  lastLogin : Option Nat
  isActive : Bool
  failedLoginAttempts : Nat
  lockedUntil : Option Nat
deriving Repr, DecidableEq

/-- A session record (`Session` in AuthService.ts). -/
structure Session where
  userId : Nat
  username : String
  role : Role
  sessionId : String
  createdAt : Nat
  expiresAt : Nat
  lastActivity : Nat
deriving Repr, DecidableEq

/-- The public user view produced by `mapStoredUserToUser` (no password hash,
no failure counters). -/
structure PublicUser where
  id : Nat
  username : String
  email : Option String
  role : Role
  assignedClients : Option (List String)
  createdAt : Nat
  lastLogin : Option Nat
deriving Repr, DecidableEq

/-- Modelled from the spec: the external bcrypt library (`bcryptjs`) used by
`SecurityService.hashPassword`.  The model keeps hashing injective and
deterministic, which is all the core logic observes through
`verifyPassword`. -/
def bcryptHash (password : String) : String :=
  "bcrypt:" ++ password

/-- `SecurityService.verifyPassword`: `bcrypt.compare(password, hash)`; on the
model's deterministic hash this is an equality test.  The source never throws
here (failures are caught and become `false`). -/
def verifyPassword (password hash : String) : Bool :=
  hash == bcryptHash password

/-- ASCII lower-case letter test, the JavaScript regex class `[a-z]`. -/
def isLowerAscii (c : Char) : Bool :=
  'a' ≤ c && c ≤ 'z'

/-- ASCII upper-case letter test, the JavaScript regex class `[A-Z]`. -/
def isUpperAscii (c : Char) : Bool :=
  'A' ≤ c && c ≤ 'Z'

/-- ASCII digit test, the JavaScript regex class `[0-9]`. -/
def isDigitAscii (c : Char) : Bool :=
  '0' ≤ c && c ≤ '9'

/-- The special characters accepted by `SecurityService.validatePassword`,
written by character code: `! @ # $ % ^ & * ( ) _ + - = [ ] { } ; ' : " \ | , . < > / ?`. -/
def specialChars : List Char :=
  [33, 64, 35, 36, 37, 94, 38, 42, 40, 41, 95, 43, 45, 61, 91, 93, 123, 125,
   59, 39, 58, 34, 92, 124, 44, 46, 60, 62, 47, 63].map Char.ofNat

/-- Membership in the special-character class of `validatePassword`. -/
def isSpecialChar (c : Char) : Bool :=
  specialChars.contains c

/-- ASCII lower-casing of one character, the effect of JavaScript
`toLowerCase` on the ASCII strings handled here. -/
def lowerChar (c : Char) : Char :=
  if isUpperAscii c then Char.ofNat (c.toNat + 32) else c

/-- ASCII lower-casing of a string. -/
def lowerString (s : String) : String :=
  ⟨s.data.map lowerChar⟩

/-- The deny-list of common weak passwords in `validatePassword`. -/
def commonPasswords : List String :=
  ["password", "password123", "12345678", "qwerty", "abc123",
   "admin", "admin123", "root", "user", "guest"]

/-- Result record of `SecurityService.validatePassword`. -/
structure PasswordValidation where
  valid : Bool
  errors : List String
deriving Repr, DecidableEq

/-- `SecurityService.validatePassword`: collects every violated password rule
in source order; valid iff the error list is empty. -/
def validatePassword (password : String) : PasswordValidation :=
  if password = "" then
    { valid := false, errors := ["Password is required"] }
  else
    let errors : List String :=
      (if password.length < 8 then ["Password must be at least 8 characters long"] else []) ++
      (if password.length > 128 then ["Password must be less than 128 characters"] else []) ++
      (if !password.data.any isLowerAscii then ["Password must contain at least one lowercase letter"] else []) ++
      (if !password.data.any isUpperAscii then ["Password must contain at least one uppercase letter"] else []) ++
      (if !password.data.any isDigitAscii then ["Password must contain at least one number"] else []) ++
      (if !password.data.any isSpecialChar then ["Password must contain at least one special character"] else []) ++
      (if commonPasswords.contains (lowerString password) then ["Password is too common and not secure"] else [])
    { valid := errors.isEmpty, errors := errors }

/-- A character allowed by the username regex `[a-zA-Z0-9_-]`. -/
def isUsernameChar (c : Char) : Bool :=
  isLowerAscii c || isUpperAscii c || isDigitAscii c || c = '_' || c = '-'

/-- `SecurityService.validateUsername`: the regex `[a-zA-Z0-9_-]` repeated 3
to 50 times, anchored at both ends. -/
def validateUsername (username : String) : Bool :=
  3 ≤ username.length && username.length ≤ 50 && username.data.all isUsernameChar

/-- A character allowed in the email regex parts `[^\s@]`. -/
def isEmailPartChar (c : Char) : Bool :=
  !c.isWhitespace && c != '@'

/-- Split a character list at every occurrence of a separator character. -/
def splitAtChar (sep : Char) : List Char → List (List Char)
  | [] => [[]]
  | c :: rest =>
    let tail := splitAtChar sep rest
    if c = sep then [] :: tail
    else
      match tail with
      | [] => [[c]]
      | seg :: segs => (c :: seg) :: segs

/-- The domain part of the email regex requires a dot that is neither its
first nor its last character (so both surrounding `[^\s@]+` groups are
nonempty). -/
def hasInteriorDot (cs : List Char) : Bool :=
  ((cs.drop 1).dropLast).contains '.'

/-- `SecurityService.validateEmail`: the regex
`[^\s@]+ @ [^\s@]+ . [^\s@]+` anchored at both ends — exactly one `@`, a
nonempty local part, and a domain with an interior dot, with no whitespace or
second `@` anywhere. -/
def validateEmail (email : String) : Bool :=
  match splitAtChar '@' email.data with
  | [localPart, domain] =>
    !localPart.isEmpty && localPart.all isEmailPartChar &&
    !domain.isEmpty && domain.all isEmailPartChar && hasInteriorDot domain
  | _ => false

/-- One record of the rate limiter map in `createRateLimiter`. -/
structure RateRecord where
  count : Nat
  resetTime : Nat
deriving Repr, DecidableEq

/-- The rate limiter map: identifier to attempt record, a JavaScript `Map`
modelled as an association list with replace-in-place update. -/
abbrev RateMap := List (String × RateRecord)

/-- `attempts.get(identifier)` on the rate limiter map. -/
def rlLookup (m : RateMap) (id : String) : Option RateRecord :=
  (m.find? (fun e => e.1 == id)).map (·.2)

/-- `attempts.set(identifier, r)`: replace the record under the key, or
append a new entry. -/
def rlSet (m : RateMap) (id : String) (r : RateRecord) : RateMap :=
  match m with
  | [] => [(id, r)]
  | e :: rest => if e.1 == id then (id, r) :: rest else e :: rlSet rest id r

/-- `isAllowed(identifier, maxAttempts, windowMs)` from
`SecurityService.createRateLimiter`: a fresh window (count 1) when there is no
record or the stored window has elapsed (`now > resetTime`); otherwise deny
without incrementing once `count >= maxAttempts`, else allow and increment.
Returns the decision together with the updated map. -/
def rlIsAllowed (m : RateMap) (id : String) (maxAttempts windowMs now : Nat) :
    Bool × RateMap :=
  match rlLookup m id with
  | none => (true, rlSet m id ⟨1, now + windowMs⟩)
  | some r =>
    if r.resetTime < now then (true, rlSet m id ⟨1, now + windowMs⟩)
    else if maxAttempts ≤ r.count then (false, m)
    else (true, rlSet m id ⟨r.count + 1, r.resetTime⟩)

/-- `reset(identifier)`: drop the record entirely (`attempts.delete`). -/
def rlReset (m : RateMap) (id : String) : RateMap :=
  m.filter (fun e => e.1 != id)

/-- `getRemainingTime(identifier)`: milliseconds until the stored window
resets, clamped at zero (natural subtraction). -/
def rlGetRemainingTime (m : RateMap) (id : String) (now : Nat) : Nat :=
  match rlLookup m id with
  | none => 0
  | some r => r.resetTime - now

/-- `Math.ceil(ms / 1000 / 60)`: milliseconds to minutes, rounded up. -/
def ceilMinutes (ms : Nat) : Nat :=
  (ms + 59999) / 60000

/-- The whole `AuthService` state: the user store (`users`, `nextId` keys),
the session store (`sessions` key), the in-process current session, and the
in-memory rate limiter map.  `nextSid` models the stream of fresh session
identifiers produced by `SecurityService.generateSessionId` (random UUIDs in
the source, which the logic only needs to be fresh opaque strings). -/
structure AuthState where
  users : List StoredUser
  nextId : Nat
  sessions : List Session
  currentSession : Option Session
  rate : RateMap
  nextSid : Nat
deriving Repr, DecidableEq

/-- The empty stores: `users = []`, `nextId = 1`, `sessions = []`, no current
session, empty rate limiter map. -/
def emptyAuthState : AuthState :=
  { users := [], nextId := 1, sessions := [], currentSession := none,
    rate := [], nextSid := 0 }

/-- The default admin record created by `initializeDefaultUser` at time
`now`: id 1, username `admin`, role `admin`, active, hash of the well-known
default password `admin123`. -/
def defaultAdminUser (now : Nat) : StoredUser :=
  { id := 1, username := "admin", email := some "admin@msp-inventory.local",
    passwordHash := bcryptHash "admin123", role := .admin,
    assignedClients := none, createdAt := now, lastLogin := none,
    isActive := true, failedLoginAttempts := 0, lockedUntil := none }

/-- `initializeDefaultUser`: if the user collection is empty, store exactly
the default admin and set `nextId` to 2. -/
def initDefaultUser (st : AuthState) (now : Nat) : AuthState :=
  if st.users.isEmpty then
    { st with users := [defaultAdminUser now], nextId := 2 }
  else st

/-- `cleanupExpiredSessions`: keep only sessions with `now < expiresAt`. -/
def cleanupExpiredSessions (st : AuthState) (now : Nat) : AuthState :=
  { st with sessions := st.sessions.filter (fun s => decide (now < s.expiresAt)) }

/-- The state after the `AuthService` constructor runs over empty stores at
time `now`: seed the default admin, then sweep expired sessions. -/
def bootState (now : Nat) : AuthState :=
  cleanupExpiredSessions (initDefaultUser emptyAuthState now) now

/-- `mapStoredUserToUser`: the public view of a stored user. -/
def mapStoredUserToUser (u : StoredUser) : PublicUser :=
  { id := u.id, username := u.username, email := u.email, role := u.role,
    assignedClients := u.assignedClients, createdAt := u.createdAt,
    lastLogin := u.lastLogin }

/-- `isSessionValid`: `now < expiresAt` and strictly less than 2 hours since
`lastActivity`. -/
def isSessionValid (s : Session) (now : Nat) : Bool :=
  decide (now < s.expiresAt) && decide (now - s.lastActivity < 2 * 60 * 60 * 1000)

/-- `getCurrentUser`: `null` unless the current session exists and passes the
validity check; then look the session's user id up in the store (with no
check of the `isActive` flag) and return the public view. -/
def getCurrentUser (st : AuthState) (now : Nat) : Option PublicUser :=
  match st.currentSession with
  | none => none
  | some s =>
    if isSessionValid s now then
      match st.users.find? (fun u => u.id == s.userId) with
      | some u => some (mapStoredUserToUser u)
      | none => none
    else none

/-- `createSession`: a fresh session for `user` with absolute expiry
`now + 8h` and `lastActivity = now`, appended to the session store. -/
def createSessionFn (st : AuthState) (now : Nat) (user : StoredUser) :
    Session × AuthState :=
  let session : Session :=
    { userId := user.id, username := user.username, role := user.role,
      sessionId := "session-" ++ toString st.nextSid, createdAt := now,
      expiresAt := now + 8 * 60 * 60 * 1000, lastActivity := now }
  (session, { st with sessions := st.sessions ++ [session],
                      nextSid := st.nextSid + 1 })

/-- `destroySession`: remove the session with the given id from the store. -/
def destroySession (st : AuthState) (sessionId : String) : AuthState :=
  { st with sessions := st.sessions.filter (fun s => s.sessionId != sessionId) }

/-- The `Partial<StoredUser> & \x7b id: number \x7d` argument of
`updateUser`: the id is always present and every other field is optional; a
present field overwrites the stored one when the objects are spread. -/
structure UserPatch where
  id : Nat
  username : Option String := none
  email : Option (Option String) := none
  passwordHash : Option String := none
  role : Option Role := none
  assignedClients : Option (Option (List String)) := none
  createdAt : Option Nat := none
  lastLogin : Option (Option Nat) := none
  isActive : Option Bool := none
  failedLoginAttempts : Option Nat := none
  lockedUntil : Option (Option Nat) := none
deriving Repr, DecidableEq

/-- The object spread `\x7b ...stored, ...patch \x7d`: every field present in
the patch overwrites the stored field. -/
def applyPatch (u : StoredUser) (p : UserPatch) : StoredUser :=
  { id := p.id,
    username := p.username.getD u.username,
    email := p.email.getD u.email,
    passwordHash := p.passwordHash.getD u.passwordHash,
    role := p.role.getD u.role,
    assignedClients := p.assignedClients.getD u.assignedClients,
    createdAt := p.createdAt.getD u.createdAt,
    lastLogin := p.lastLogin.getD u.lastLogin,
    isActive := p.isActive.getD u.isActive,
    failedLoginAttempts := p.failedLoginAttempts.getD u.failedLoginAttempts,
    lockedUntil := p.lockedUntil.getD u.lockedUntil }

/-- The patch passing a whole `StoredUser` object, as the `login`,
`changePassword` and `initializeDefaultUser` call sites of `updateUser` do:
every field present. -/
def fullPatch (u : StoredUser) : UserPatch :=
  { id := u.id, username := some u.username, email := some u.email,
    passwordHash := some u.passwordHash, role := some u.role,
    assignedClients := some u.assignedClients, createdAt := some u.createdAt,
    lastLogin := some u.lastLogin, isActive := some u.isActive,
    failedLoginAttempts := some u.failedLoginAttempts,
    lockedUntil := some u.lockedUntil }

/-- JavaScript `Array.prototype.findIndex`: index of the first element
satisfying the predicate, if any. -/
def findIdxA (p : StoredUser → Bool) : List StoredUser → Option Nat
  | [] => none
  | u :: rest => if p u then some 0 else (findIdxA p rest).map (· + 1)

/-- A default record used to model an (unreachable) out-of-bounds array
access; `findIndex` success guarantees the index is in bounds. -/
def dfltUser : StoredUser :=
  { id := 0, username := "", email := none, passwordHash := "",
    role := .readonly, assignedClients := none, createdAt := 0,
    lastLogin := none, isActive := false, failedLoginAttempts := 0,
    lockedUntil := none }

/-- Result of the public `updateUser`. -/
inductive UpdateResult where
  | ok
  | insufficientPermissions
  | userNotFound
deriving Repr, DecidableEq

/-- The public `updateUser(userData)`: requires an authenticated current user
who is an admin or is updating their own record; finds the target by id and
replaces it with the spread-merge of the stored record and the patch.  There
is no validation and no uniqueness check on the merged fields. -/
def updateUserFn (st : AuthState) (now : Nat) (p : UserPatch) :
    UpdateResult × AuthState :=
  match getCurrentUser st now with
  | none => (.insufficientPermissions, st)
  | some cu =>
    if cu.role ≠ .admin ∧ cu.id ≠ p.id then (.insufficientPermissions, st)
    else
      match findIdxA (fun u => u.id == p.id) st.users with
      | none => (.userNotFound, st)
      | some i =>
        (.ok, { st with users := st.users.set i (applyPatch (st.users.getD i dfltUser) p) })

/-- The private `updateStoredUser(user)`: replace the record with the same id,
if present, with no permission check. -/
def updateStoredUserL (users : List StoredUser) (u : StoredUser) : List StoredUser :=
  match findIdxA (fun x => x.id == u.id) users with
  | none => users
  | some i => users.set i u

/-- The result variants of `login`, one per distinct return of the source:
missing credentials, the rate limiter message (with its retry-after minutes),
the generic invalid-credentials message, the account-locked message (with its
retry-after minutes), and success carrying the public user view and the
session token. -/
inductive LoginResult where
  | missingCredentials
  | rateLimited (retryAfterMinutes : Nat)
  | invalidCredentials
  | accountLocked (retryAfterMinutes : Nat)
  | success (user : PublicUser) (token : String)
deriving Repr, DecidableEq

/-- Whether a login result is the success variant. -/
def LoginResult.isSuccess : LoginResult → Bool
  | .success _ _ => true
  | _ => false

/-- The truthy lock test `user.lockedUntil && new Date() < user.lockedUntil`. -/
def lockActive (u : StoredUser) (now : Nat) : Bool :=
  match u.lockedUntil with
  | some t => decide (now < t)
  | none => false

/-- `user.lockedUntil.getTime() - Date.now()` in the locked branch (clamped
natural subtraction; the branch only runs while `now < lockedUntil`). -/
def lockRemainingMs (u : StoredUser) (now : Nat) : Nat :=
  match u.lockedUntil with
  | some t => t - now
  | none => 0

/-- The success tail of `login`: reset the failure counter and lock, stamp
`lastLogin`, persist through the public permission-checked `updateUser`
(whose result is ignored), reset the rate limiter for the identifier, create
a session and record it as current. -/
def loginSuccess (st : AuthState) (now : Nat) (clientId : String)
    (user : StoredUser) : LoginResult × AuthState :=
  let user1 : StoredUser :=
    { user with failedLoginAttempts := 0, lockedUntil := none,
                lastLogin := some now }
  let st2 := (updateUserFn st now (fullPatch user1)).2
  let st3 := { st2 with rate := rlReset st2.rate clientId }
  let sPair := createSessionFn st3 now user1
  (.success (mapStoredUserToUser user1) sPair.1.sessionId,
   { sPair.2 with currentSession := some sPair.1 })

/-- The failed-password tail of `login`: increment the failure counter, set
a 30-minute lock when it reaches 5, and persist through the private
`updateStoredUser`. -/
def loginFailUpdate (st : AuthState) (now : Nat) (user : StoredUser) :
    LoginResult × AuthState :=
  let u1 : StoredUser :=
    { user with failedLoginAttempts := user.failedLoginAttempts + 1 }
  let u2 : StoredUser :=
    if 5 ≤ u1.failedLoginAttempts then
      { u1 with lockedUntil := some (now + 30 * 60 * 1000) }
    else u1
  (.invalidCredentials, { st with users := updateStoredUserL st.users u2 })

/-- `login(credentials)` at time `now`: input check, rate-limit gate (5
attempts per 15 minutes keyed by `login_<username>`), active-user lookup,
lock check, password verification, then the success or failure tail. -/
def loginFn (st : AuthState) (now : Nat) (username password : String) :
    LoginResult × AuthState :=
  if username = "" ∨ password = "" then (.missingCredentials, st)
  else
    match rlIsAllowed st.rate ("login_" ++ username) 5 (15 * 60 * 1000) now with
    | (false, rate1) =>
      (.rateLimited (ceilMinutes (rlGetRemainingTime rate1 ("login_" ++ username) now)),
       { st with rate := rate1 })
    | (true, rate1) =>
      match st.users.find? (fun u => u.username == username && u.isActive) with
      | none => (.invalidCredentials, { st with rate := rate1 })
      | some user =>
        if lockActive user now then
          (.accountLocked (ceilMinutes (lockRemainingMs user now)), { st with rate := rate1 })
        else if verifyPassword password user.passwordHash then
          loginSuccess { st with rate := rate1 } now ("login_" ++ username) user
        else
          loginFailUpdate { st with rate := rate1 } now user

/-- `logout()`: destroy the current session, if any, and clear the current
session reference; always reports success. -/
def logoutFn (st : AuthState) : Bool × AuthState :=
  match st.currentSession with
  | some s => (true, { destroySession st s.sessionId with currentSession := none })
  | none => (true, st)

/-- `autoLoginAsAdmin()`: when a user is already authenticated, return it
with the current session token; otherwise attempt the default
`admin`/`admin123` credentials.  (The source reads `currentSession!` — when
`getCurrentUser()` is truthy the current session necessarily exists, and the
dead `none` branch supplies a dummy token.) -/
def autoLoginAsAdminFn (st : AuthState) (now : Nat) : LoginResult × AuthState :=
  match getCurrentUser st now with
  | some u =>
    (.success u (match st.currentSession with
                 | some s => s.sessionId
                 | none => ""), st)
  | none => loginFn st now "admin" "admin123"

/-- Result of `createUser`, one variant per distinct return of the source. -/
inductive CreateUserResult where
  | ok (user : PublicUser)
  | insufficientPermissions
  | invalidUsername
  | invalidEmail
  | passwordPolicy (errors : List String)
  | duplicateUsername
deriving Repr, DecidableEq

/-- The truthy email check `email && !validateEmail(email)` of `createUser`
(an absent or empty email skips validation). -/
def emailTruthyInvalid : Option String → Bool
  | none => false
  | some e => if e == "" then false else !validateEmail e

/-- `createUser(userData)`: admin-only; validates username format, optional
email format and password policy; rejects a username equal to any stored
user's username; otherwise appends a fresh active user under `nextId` and
increments `nextId`. -/
def createUserFn (st : AuthState) (now : Nat) (username : String)
    (email : Option String) (password : String) (role : Role)
    (assignedClients : Option (List String)) : CreateUserResult × AuthState :=
  match getCurrentUser st now with
  | none => (.insufficientPermissions, st)
  | some cu =>
    if cu.role ≠ .admin then (.insufficientPermissions, st)
    else if !validateUsername username then (.invalidUsername, st)
    else if emailTruthyInvalid email then (.invalidEmail, st)
    else if !(validatePassword password).valid then
      (.passwordPolicy (validatePassword password).errors, st)
    else if st.users.any (fun u => u.username == username) then
      (.duplicateUsername, st)
    else
      let newUser : StoredUser :=
        { id := st.nextId, username := username, email := email,
          passwordHash := bcryptHash password, role := role,
          assignedClients := assignedClients, createdAt := now,
          lastLogin := none, isActive := true, failedLoginAttempts := 0,
          lockedUntil := none }
      (.ok (mapStoredUserToUser newUser),
       { st with users := st.users ++ [newUser], nextId := st.nextId + 1 })

/-- Result of `changePassword`, one variant per distinct return of the
source. -/
inductive ChangePasswordResult where
  | ok
  | insufficientPermissions
  | userNotFound
  | currentPasswordIncorrect
  | passwordPolicy (errors : List String)
deriving Repr, DecidableEq

/-- `changePassword(userId, oldPassword, newPassword)`: requires admin or
self; when the caller targets their own record the old password must verify;
the new password must pass policy; the new hash is persisted through the
public `updateUser` (whose result is ignored). -/
def changePasswordFn (st : AuthState) (now : Nat) (userId : Nat)
    (oldPassword newPassword : String) : ChangePasswordResult × AuthState :=
  match getCurrentUser st now with
  | none => (.insufficientPermissions, st)
  | some cu =>
    if cu.role ≠ .admin ∧ cu.id ≠ userId then (.insufficientPermissions, st)
    else
      match st.users.find? (fun u => u.id == userId) with
      | none => (.userNotFound, st)
      | some user =>
        if cu.id = userId ∧ verifyPassword oldPassword user.passwordHash = false then
          (.currentPasswordIncorrect, st)
        else if !(validatePassword newPassword).valid then
          (.passwordPolicy (validatePassword newPassword).errors, st)
        else
          (.ok, (updateUserFn st now
                   (fullPatch { user with passwordHash := bcryptHash newPassword })).2)

/-- The public operations of the claim about reachable states: `login`,
`logout`, `createUser`, `updateUser` and `changePassword`, each invoked at an
arbitrary clock value. -/
inductive Op where
  | login (username password : String)
  | logout
  | createUser (username : String) (email : Option String) (password : String)
      (role : Role) (assignedClients : Option (List String))
  | updateUser (p : UserPatch)
  | changePassword (userId : Nat) (oldPassword newPassword : String)
deriving Repr, DecidableEq

/-- Whether an operation is a direct `updateUser` call. -/
def Op.isUpdateUser : Op → Bool
  | .updateUser _ => true
  | _ => false

/-- Run one public operation at time `now`, keeping only the state. -/
def stepOp (st : AuthState) (now : Nat) : Op → AuthState
  | .login u p => (loginFn st now u p).2
  | .logout => (logoutFn st).2
  | .createUser u e p r a => (createUserFn st now u e p r a).2
  | .updateUser p => (updateUserFn st now p).2
  | .changePassword i o n => (changePasswordFn st now i o n).2

/-- Run a sequence of timestamped public operations from a start state. -/
def runOps (st : AuthState) (ops : List (Nat × Op)) : AuthState :=
  ops.foldl (fun s p => stepOp s p.1 p.2) st

/-! ### Helper lemmas about the list primitives of the embedding -/

/-- A successful `findIndex` points at an element satisfying the predicate. -/
theorem findIdxA_some (l : List StoredUser) (p : StoredUser → Bool) (i : Nat)
    (h : findIdxA p l = some i) : ∃ v, l.get? i = some v ∧ p v = true := by
  induction l generalizing i with
  | nil => simp [findIdxA] at h
  | cons x xs ih =>
    by_cases hp : p x
    · simp [findIdxA, hp] at h
      subst h
      exact ⟨x, rfl, hp⟩
    · simp [findIdxA, hp] at h
      obtain ⟨j, hj, rfl⟩ := h
      obtain ⟨v, hv, hpv⟩ := ih j hj
      exact ⟨v, hv, hpv⟩

/-- `getD` agrees with a successful `get?`. -/
theorem getD_of_get? (l : List StoredUser) (i : Nat) (v : StoredUser)
    (h : l.get? i = some v) : l.getD i dfltUser = v := by
  induction l generalizing i with
  | nil => cases h
  | cons x xs ih =>
    cases i with
    | zero =>
      have hx : x = v := by simpa using h
      simp [List.getD, hx]
    | succ j =>
      have h' : xs.get? j = some v := h
      simpa [List.getD] using ih j h'

/-- A successful `find?` yields a first index: the element there, and the fact
that replacing it with any element still satisfying the predicate makes that
element the new `find?` result. -/
theorem findIdxA_of_find? (l : List StoredUser) (p : StoredUser → Bool)
    (a : StoredUser) (h : l.find? p = some a) :
    ∃ i, findIdxA p l = some i ∧ l.getD i dfltUser = a ∧
      ∀ u', p u' = true → (l.set i u').find? p = some u' := by
  induction l with
  | nil => simp at h
  | cons x xs ih =>
    by_cases hp : p x
    · rw [List.find?_cons_of_pos _ hp] at h
      refine ⟨0, by simp [findIdxA, hp], by simpa [List.getD] using h, ?_⟩
      intro u' hu'
      simpa [List.set] using List.find?_cons_of_pos _ hu'
    · rw [List.find?_cons_of_neg _ hp] at h
      obtain ⟨i, h1, h2, h3⟩ := ih h
      refine ⟨i + 1, by simp [findIdxA, hp, h1], by simpa [List.getD] using h2, ?_⟩
      intro u' hu'
      simpa [List.set, List.find?_cons_of_neg _ hp] using h3 u' hu'

/-- With duplicate-free ids, two stored members with the same id are the same
record. -/
theorem eq_of_mem_nodup_id (l : List StoredUser)
    (hN : (l.map (fun u => u.id)).Nodup) :
    ∀ u v, u ∈ l → v ∈ l → u.id = v.id → u = v := by
  induction l with
  | nil => intro u v hu; simp at hu
  | cons x xs ih =>
    rw [List.map_cons, List.nodup_cons] at hN
    intro u v hu hv hid
    rcases List.mem_cons.mp hu with rfl | hu' <;>
      rcases List.mem_cons.mp hv with rfl | hv'
    · rfl
    · exact absurd (hid ▸ List.mem_map_of_mem (fun u => u.id) hv') hN.1
    · exact absurd (hid ▸ List.mem_map_of_mem (fun u => u.id) hu') hN.1
    · exact ih hN.2 u v hu' hv' hid

/-! ### Claim theorems -/

/-- Intermediate rate-limiter map after 1 call on identifier `id` at `t1`
with `maxAttempts = 5`, `window = 15` minutes. -/
def rlS1 (id : String) (t1 : Nat) : RateMap :=
  (rlIsAllowed [] id 5 900000 t1).2

/-- Map after 2 calls. -/
def rlS2 (id : String) (t1 t2 : Nat) : RateMap :=
  (rlIsAllowed (rlS1 id t1) id 5 900000 t2).2

/-- Map after 3 calls. -/
def rlS3 (id : String) (t1 t2 t3 : Nat) : RateMap :=
  (rlIsAllowed (rlS2 id t1 t2) id 5 900000 t3).2

/-- Map after 4 calls. -/
def rlS4 (id : String) (t1 t2 t3 t4 : Nat) : RateMap :=
  (rlIsAllowed (rlS3 id t1 t2 t3) id 5 900000 t4).2

/-- Map after 5 calls. -/
def rlS5 (id : String) (t1 t2 t3 t4 t5 : Nat) : RateMap :=
  (rlIsAllowed (rlS4 id t1 t2 t3 t4) id 5 900000 t5).2

/-- A call on a singleton map within the stored window and under the cap
allows and increments. -/
theorem rlIsAllowed_within (id : String) (r : RateRecord) (now : Nat)
    (h : now ≤ r.resetTime) (hc : r.count < 5) :
    rlIsAllowed [(id, r)] id 5 900000 now =
      (true, [(id, ⟨r.count + 1, r.resetTime⟩)]) := by
  simp [rlIsAllowed, rlLookup, rlSet, List.find?, Nat.not_lt.mpr h, Nat.not_le.mpr hc]

/-- C6 (rate limiter windowing): with `maxAttempts = 5` and a 15-minute
window, six consecutive `isAllowed` calls whose last five fall inside the
window opened by the first return `true` five times and then `false`; the
denied call leaves the stored record (count 5) unchanged; and the first call
made strictly after the stored reset time is allowed again and replaces the
record with a fresh window of count 1. -/
theorem c6_rate_limiter_window (id : String) (t1 t2 t3 t4 t5 t6 t7 : Nat)
    (h2 : t2 ≤ t1 + 900000) (h3 : t3 ≤ t1 + 900000) (h4 : t4 ≤ t1 + 900000)
    (h5 : t5 ≤ t1 + 900000) (h6 : t6 ≤ t1 + 900000) (h7 : t1 + 900000 < t7) :
    (rlIsAllowed [] id 5 900000 t1).1 = true ∧
    (rlIsAllowed (rlS1 id t1) id 5 900000 t2).1 = true ∧
    (rlIsAllowed (rlS2 id t1 t2) id 5 900000 t3).1 = true ∧
    (rlIsAllowed (rlS3 id t1 t2 t3) id 5 900000 t4).1 = true ∧
    (rlIsAllowed (rlS4 id t1 t2 t3 t4) id 5 900000 t5).1 = true ∧
    rlIsAllowed (rlS5 id t1 t2 t3 t4 t5) id 5 900000 t6 =
      (false, rlS5 id t1 t2 t3 t4 t5) ∧
    rlLookup (rlS5 id t1 t2 t3 t4 t5) id = some ⟨5, t1 + 900000⟩ ∧
    rlIsAllowed (rlS5 id t1 t2 t3 t4 t5) id 5 900000 t7 =
      (true, [(id, ⟨1, t7 + 900000⟩)]) := by
  have e1 : rlS1 id t1 = [(id, ⟨1, t1 + 900000⟩)] := by
    simp [rlS1, rlIsAllowed, rlLookup, rlSet, List.find?]
  have e2 : rlS2 id t1 t2 = [(id, ⟨2, t1 + 900000⟩)] := by
    rw [rlS2, e1, rlIsAllowed_within id _ t2 h2 (by norm_num)]
  have e3 : rlS3 id t1 t2 t3 = [(id, ⟨3, t1 + 900000⟩)] := by
    rw [rlS3, e2, rlIsAllowed_within id _ t3 h3 (by norm_num)]
  have e4 : rlS4 id t1 t2 t3 t4 = [(id, ⟨4, t1 + 900000⟩)] := by
    rw [rlS4, e3, rlIsAllowed_within id _ t4 h4 (by norm_num)]
  have e5 : rlS5 id t1 t2 t3 t4 t5 = [(id, ⟨5, t1 + 900000⟩)] := by
    rw [rlS5, e4, rlIsAllowed_within id _ t5 h5 (by norm_num)]
  refine ⟨?_, ?_, ?_, ?_, ?_, ?_, ?_, ?_⟩
  · simp [rlIsAllowed, rlLookup, List.find?]
  · rw [e1, rlIsAllowed_within id _ t2 h2 (by norm_num)]
  · rw [e2, rlIsAllowed_within id _ t3 h3 (by norm_num)]
  · rw [e3, rlIsAllowed_within id _ t4 h4 (by norm_num)]
  · rw [e4, rlIsAllowed_within id _ t5 h5 (by norm_num)]
  · rw [e5]
    simp [rlIsAllowed, rlLookup, List.find?, Nat.not_lt.mpr h6]
  · rw [e5]
    simp [rlLookup, List.find?]
  · rw [e5]
    simp [rlIsAllowed, rlLookup, rlSet, List.find?, h7]

/-- Witness for C6 at concrete times 0..5 within the window opened at 0, and
a seventh call at 900001, just past the reset time. -/
theorem c6_rate_limiter_window_witness :
    (rlIsAllowed [] "u" 5 900000 0).1 = true ∧
    (rlIsAllowed (rlS1 "u" 0) "u" 5 900000 1).1 = true ∧
    (rlIsAllowed (rlS2 "u" 0 1) "u" 5 900000 2).1 = true ∧
    (rlIsAllowed (rlS3 "u" 0 1 2) "u" 5 900000 3).1 = true ∧
    (rlIsAllowed (rlS4 "u" 0 1 2 3) "u" 5 900000 4).1 = true ∧
    rlIsAllowed (rlS5 "u" 0 1 2 3 4) "u" 5 900000 5 =
      (false, rlS5 "u" 0 1 2 3 4) ∧
    rlLookup (rlS5 "u" 0 1 2 3 4) "u" = some ⟨5, 900000⟩ ∧
    rlIsAllowed (rlS5 "u" 0 1 2 3 4) "u" 5 900000 900001 =
      (true, [("u", ⟨1, 900001 + 900000⟩)]) :=
  c6_rate_limiter_window "u" 0 1 2 3 4 5 900001
    (by decide) (by decide) (by decide) (by decide) (by decide) (by decide)

/-- C10: `getCurrentUser` never reads the stored `isActive` flag — with a
valid current session whose user id resolves to a stored user that is
inactive, it still returns that user's public view. -/
theorem c10_getCurrentUser_ignores_isActive
    (st : AuthState) (now : Nat) (s : Session) (u : StoredUser)
    (hs : st.currentSession = some s)
    (hv : isSessionValid s now = true)
    (hf : st.users.find? (fun x => x.id == s.userId) = some u)
    (_hinactive : u.isActive = false) :
    getCurrentUser st now = some (mapStoredUserToUser u) := by
  simp [getCurrentUser, hs, hv, hf]

/-- A deactivated user record for the C10 witness. -/
def inactiveBob : StoredUser :=
  { id := 7, username := "bob", email := none,
    passwordHash := bcryptHash "Bobs8Pw!", role := .technician,
    assignedClients := none, createdAt := 0, lastLogin := none,
    isActive := false, failedLoginAttempts := 0, lockedUntil := none }

/-- A live session for the C10 witness, created at time 0. -/
def bobSession : Session :=
  { userId := 7, username := "bob", role := .technician,
    sessionId := "session-0", createdAt := 0, expiresAt := 28800000,
    lastActivity := 0 }

/-- A state for the C10 witness: Bob is deactivated but his session is
current. -/
def inactiveBobState : AuthState :=
  { users := [inactiveBob], nextId := 8, sessions := [bobSession],
    currentSession := some bobSession, rate := [], nextSid := 1 }

/-- Witness for C10: at time 1000 the session is valid, Bob is inactive, and
`getCurrentUser` still returns his public view. -/
theorem c10_getCurrentUser_ignores_isActive_witness :
    isSessionValid bobSession 1000 = true ∧ inactiveBob.isActive = false ∧
    getCurrentUser inactiveBobState 1000 = some (mapStoredUserToUser inactiveBob) :=
  ⟨by decide, by decide,
   c10_getCurrentUser_ignores_isActive inactiveBobState 1000 bobSession
     inactiveBob rfl (by decide) (by decide) rfl⟩

/-- C8: a self-targeted `changePassword` whose old password does not verify
against the stored hash fails with the current-password-incorrect error and
leaves the whole state (in particular the stored hash) unchanged. -/
theorem c8_changePassword_wrong_old
    (st : AuthState) (now : Nat) (userId : Nat) (oldPassword newPassword : String)
    (cu : PublicUser) (user : StoredUser)
    (hcu : getCurrentUser st now = some cu)
    (hself : cu.id = userId)
    (hfind : st.users.find? (fun u => u.id == userId) = some user)
    (hverify : verifyPassword oldPassword user.passwordHash = false) :
    changePasswordFn st now userId oldPassword newPassword =
      (.currentPasswordIncorrect, st) := by
  simp [changePasswordFn, hcu, hfind, hself, hverify]

/-- The stored user for the C8/Scenario C witness: user 2 with a known
hash. -/
def scenarioCUser : StoredUser :=
  { id := 2, username := "carol", email := none,
    passwordHash := bcryptHash "RightPw1!", role := .technician,
    assignedClients := none, createdAt := 0, lastLogin := none,
    isActive := true, failedLoginAttempts := 0, lockedUntil := none }

/-- The current session of user 2 for the C8 witness. -/
def scenarioCSession : Session :=
  { userId := 2, username := "carol", role := .technician,
    sessionId := "session-0", createdAt := 0, expiresAt := 28800000,
    lastActivity := 0 }

/-- The state for the C8 witness: user 2 is authenticated. -/
def scenarioCState : AuthState :=
  { users := [scenarioCUser], nextId := 3, sessions := [scenarioCSession],
    currentSession := some scenarioCSession, rate := [], nextSid := 1 }

/-- Witness for C8: user 2 calls `changePassword(2, "wrongOld", "NewPass1!")`
on their own account at time 1000; the old password does not verify, the
call fails with the old-password-mismatch error and the state is unchanged. -/
theorem c8_changePassword_wrong_old_witness :
    verifyPassword "wrongOld" scenarioCUser.passwordHash = false ∧
    changePasswordFn scenarioCState 1000 2 "wrongOld" "NewPass1!" =
      (.currentPasswordIncorrect, scenarioCState) :=
  ⟨by decide,
   c8_changePassword_wrong_old scenarioCState 1000 2 "wrongOld" "NewPass1!"
     (mapStoredUserToUser scenarioCUser) scenarioCUser (by decide) rfl
     (by decide) (by decide)⟩

/-- C7: `createUser` called by an authenticated admin, with inputs passing
the format and policy validations but whose username equals (case-sensitive)
an existing active user's username, fails with the duplicate-username error
and leaves the state — the user list and the `nextId` counter — unchanged. -/
theorem c7_createUser_duplicate
    (st : AuthState) (now : Nat) (username : String) (email : Option String)
    (password : String) (role : Role) (assignedClients : Option (List String))
    (cu : PublicUser)
    (hcu : getCurrentUser st now = some cu)
    (hadmin : cu.role = .admin)
    (hun : validateUsername username = true)
    (hem : emailTruthyInvalid email = false)
    (hpw : (validatePassword password).valid = true)
    (hdup : st.users.any (fun u => u.username == username && u.isActive) = true) :
    createUserFn st now username email password role assignedClients =
      (.duplicateUsername, st) := by
  have hdup' : st.users.any (fun u => u.username == username) = true := by
    obtain ⟨u, hu, hand⟩ := List.any_eq_true.mp hdup
    rw [Bool.and_eq_true] at hand
    exact List.any_eq_true.mpr ⟨u, hu, hand.1⟩
  simp [createUserFn, hcu, hadmin, hun, hem, hpw, hdup']

/-- The state for the C7 witness: the bootstrap admin, logged in at time 0. -/
def adminLoggedInState : AuthState :=
  (loginFn (bootState 0) 0 "admin" "admin123").2

/-- Witness for C7: the logged-in admin calls `createUser` with the username
`admin` (which an active user already holds) and otherwise valid inputs; the
call returns the duplicate error and the state is unchanged. -/
theorem c7_createUser_duplicate_witness :
    (adminLoggedInState.users.any (fun u => u.username == "admin" && u.isActive)) = true ∧
    createUserFn adminLoggedInState 5 "admin" none "Xy12!abc" .technician none =
      (.duplicateUsername, adminLoggedInState) :=
  ⟨by decide,
   c7_createUser_duplicate adminLoggedInState 5 "admin" none "Xy12!abc"
     .technician none (mapStoredUserToUser (defaultAdminUser 0)) (by decide)
     (by decide) (by decide) (by decide) (by decide) (by decide)⟩

/-- C5: `updateUser` places no restriction on the fields of a self-targeted
update.  For any authenticated user (of any role) and any patch aimed at
their own id — in particular one rewriting `role`, `isActive`, `username`,
`assignedClients` or `passwordHash` — the call succeeds and persists the
spread-merge of the stored record and the patch, with no validation or
uniqueness check. -/
theorem c5_updateUser_unrestricted_self
    (st : AuthState) (now : Nat) (p : UserPatch) (u : PublicUser)
    (old : StoredUser)
    (hcu : getCurrentUser st now = some u)
    (hid : p.id = u.id)
    (hold : st.users.find? (fun v => v.id == p.id) = some old) :
    (updateUserFn st now p).1 = .ok ∧
    ((updateUserFn st now p).2.users.find? (fun v => v.id == p.id)) =
      some (applyPatch old p) := by
  obtain ⟨i, hidx, hgetD, hset⟩ := findIdxA_of_find? _ _ _ hold
  have hperm : ¬(u.role ≠ .admin ∧ u.id ≠ p.id) := fun hcon => hcon.2 hid.symm
  have happ : (applyPatch old p).id == p.id := by simp [applyPatch]
  unfold updateUserFn
  rw [hcu]
  dsimp only
  rw [if_neg hperm, hidx]
  dsimp only
  rw [hgetD]
  exact ⟨rfl, hset (applyPatch old p) happ⟩

/-- The stored user for the C5 witness: a read-only user. -/
def readonlyDave : StoredUser :=
  { id := 4, username := "dave", email := none,
    passwordHash := bcryptHash "DavesPw1!", role := .readonly,
    assignedClients := none, createdAt := 0, lastLogin := none,
    isActive := true, failedLoginAttempts := 0, lockedUntil := none }

/-- The current session of the read-only user for the C5 witness. -/
def daveSession : Session :=
  { userId := 4, username := "dave", role := .readonly,
    sessionId := "session-0", createdAt := 0, expiresAt := 28800000,
    lastActivity := 0 }

/-- The state for the C5 witness: the read-only user is authenticated. -/
def daveState : AuthState :=
  { users := [readonlyDave], nextId := 5, sessions := [daveSession],
    currentSession := some daveSession, rate := [], nextSid := 1 }

/-- The C5 witness patch: a self-targeted update that sets `role` to
`admin`. -/
def daveRolePatch : UserPatch :=
  { id := 4, role := some .admin }

/-- Witness for C5: the read-only user self-updates `role` to `admin`; the
call returns success and the stored record's role afterwards is `admin`. -/
theorem c5_updateUser_unrestricted_self_witness :
    (updateUserFn daveState 1000 daveRolePatch).1 = .ok ∧
    ((updateUserFn daveState 1000 daveRolePatch).2.users.find?
        (fun v => v.id == 4)) = some (applyPatch readonlyDave daveRolePatch) ∧
    (applyPatch readonlyDave daveRolePatch).role = .admin := by
  have h := c5_updateUser_unrestricted_self daveState 1000 daveRolePatch
    (mapStoredUserToUser readonlyDave) readonlyDave (by decide) rfl (by decide)
  exact ⟨h.1, h.2, by decide⟩

/-- C9: from empty stores, startup creates exactly one user — id 1, username
`admin`, role `admin`, active, holding the hash of the default password
`admin123` — and sets `nextId` to 2; from that state the first
`autoLoginAsAdmin()` succeeds with the admin public view and the token of a
freshly created session whose role is `admin`. -/
theorem c9_bootstrap_auto_login (t0 t1 : Nat) :
    (bootState t0).users = [defaultAdminUser t0] ∧
    (bootState t0).nextId = 2 ∧
    (defaultAdminUser t0).id = 1 ∧
    (defaultAdminUser t0).username = "admin" ∧
    (defaultAdminUser t0).role = .admin ∧
    (defaultAdminUser t0).isActive = true ∧
    (defaultAdminUser t0).passwordHash = bcryptHash "admin123" ∧
    (autoLoginAsAdminFn (bootState t0) t1).1 =
      .success { id := 1, username := "admin",
                 email := some "admin@msp-inventory.local", role := .admin,
                 assignedClients := none, createdAt := t0,
                 lastLogin := some t1 } "session-0" ∧
    ((autoLoginAsAdminFn (bootState t0) t1).2.currentSession.map (·.role)) =
      some .admin := by
  refine ⟨rfl, rfl, rfl, rfl, rfl, rfl, rfl, ?_, ?_⟩ <;>
    simp [autoLoginAsAdminFn, bootState, initDefaultUser, emptyAuthState,
          cleanupExpiredSessions, getCurrentUser, loginFn, rlIsAllowed,
          rlLookup, rlSet, defaultAdminUser, lockActive, verifyPassword,
          bcryptHash, loginSuccess, updateUserFn, createSessionFn,
          mapStoredUserToUser, rlReset, List.find?]
  rfl

/-- The state reached by bootstrapping empty stores at time 0 and then making
`n` logins as `admin` with the wrong password `WrongPw9!`, one per
millisecond starting at time 0. -/
def failedLoginsState : Nat → AuthState
  | 0 => bootState 0
  | n + 1 => (loginFn (failedLoginsState n) n "admin" "WrongPw9!").2

/-- Counterexample for C1: after exactly 5 consecutive failed logins for the
active, initially unlocked `admin` user (at times 0..4, all inside the
15-minute rate window opened at time 0), the 6th attempt with the correct
password at time 5 does not return the account-locked error: the rate
limiter, checked before the lock, already denies it, so the result is the
rate-limited error with its 15-minute retry-after. -/
theorem c1_sixth_attempt_counterexample :
    (loginFn (failedLoginsState 5) 5 "admin" "admin123").1 =
      .rateLimited 15 ∧
    ∀ m, (loginFn (failedLoginsState 5) 5 "admin" "admin123").1 ≠
      .accountLocked m := by
  have h : (loginFn (failedLoginsState 5) 5 "admin" "admin123").1 =
      .rateLimited 15 := by decide
  exact ⟨h, fun m hm => by rw [h] at hm; exact LoginResult.noConfusion hm⟩

/-- The C1 scenario state after the denied 6th attempt at time 5. -/
def c1AfterSixth : AuthState :=
  (loginFn (failedLoginsState 5) 5 "admin" "admin123").2

/-- The C1 scenario state after a further correct-password attempt at time
900001, just past the rate window but inside the 30-minute lock. -/
def c1AfterSeventh : AuthState :=
  (loginFn c1AfterSixth 900001 "admin" "admin123").2

/-- C1 as amended: the five failed attempts (times 0..4) each return the
generic invalid-credentials error and leave the stored user with counter 5
and `lockedUntil = 1800004` (= time of 5th failure + 30 minutes); the 6th
attempt inside the rate window returns the rate-limited error (15 minutes),
not the account-locked one; a correct-password attempt at time 900001 — past
the rate window but inside the lock — returns the account-locked error (16
minutes); a correct-password attempt at time 1800004, once the 30 minutes
have elapsed, succeeds; but the persisted failed-login counter stays at 5
rather than resetting to 0, because the success path persists through the
permission-checked public `updateUser` while no session is current. -/
theorem c1_lockout_amended :
    (loginFn (failedLoginsState 0) 0 "admin" "WrongPw9!").1 = .invalidCredentials ∧
    (loginFn (failedLoginsState 1) 1 "admin" "WrongPw9!").1 = .invalidCredentials ∧
    (loginFn (failedLoginsState 2) 2 "admin" "WrongPw9!").1 = .invalidCredentials ∧
    (loginFn (failedLoginsState 3) 3 "admin" "WrongPw9!").1 = .invalidCredentials ∧
    (loginFn (failedLoginsState 4) 4 "admin" "WrongPw9!").1 = .invalidCredentials ∧
    (((failedLoginsState 5).users.find? (fun u => u.id == 1)).map
        fun u => (u.failedLoginAttempts, u.lockedUntil)) =
      some (5, some 1800004) ∧
    (loginFn (failedLoginsState 5) 5 "admin" "admin123").1 = .rateLimited 15 ∧
    (loginFn c1AfterSixth 900001 "admin" "admin123").1 = .accountLocked 16 ∧
    ((loginFn c1AfterSeventh 1800004 "admin" "admin123").1).isSuccess = true ∧
    (((loginFn c1AfterSeventh 1800004 "admin" "admin123").2.users.find?
        (fun u => u.id == 1)).map fun u => u.failedLoginAttempts) = some 5 := by
  decide

/-- A state for the C2 failing input: one active user `alice` with 3 failed
login attempts on record, no current session, empty rate limiter. -/
def aliceState : AuthState :=
  { users := [{ id := 1, username := "alice", email := none,
                passwordHash := bcryptHash "Alic3Pw!", role := .technician,
                assignedClients := none, createdAt := 0, lastLogin := none,
                isActive := true, failedLoginAttempts := 3,
                lockedUntil := none }],
    nextId := 2, sessions := [], currentSession := none, rate := [],
    nextSid := 0 }

/-- C2 exhibits a bug: a successful login from an unauthenticated state (no
current session) returns success but does not persist the user record — the
stored `failedLoginAttempts` stays 3 and `lastLogin` stays unset, because the
success path persists through the public permission-checked `updateUser`,
which reads `getCurrentUser()` before the new session exists and silently
fails.  This theorem evaluates the code at the failing input. -/
theorem c2_success_persist_dropped :
    ((loginFn aliceState 1000 "alice" "Alic3Pw!").1).isSuccess = true ∧
    (loginFn aliceState 1000 "alice" "Alic3Pw!").2.users = aliceState.users ∧
    (((loginFn aliceState 1000 "alice" "Alic3Pw!").2.users.find?
        (fun u => u.id == 1)).map
        fun u => (u.failedLoginAttempts, u.lastLogin)) = some (3, none) := by
  decide

/-- The state right after a successful `admin` login at time 0: the current
session was created at time 0 with `lastActivity = 0`. -/
def freshLoginState : AuthState :=
  (loginFn (bootState 0) 0 "admin" "admin123").2

/-- Counterexample for C3: a session created at time 0 with no further
operations is already invalid at `T + 7h59m` (= 28740000 ms): the 2-hour
inactivity bound has long been exceeded, so the validity check fails and
`getCurrentUser` returns none — the claim asserted it is valid then. -/
theorem c3_session_validity_counterexample :
    (freshLoginState.currentSession.map
        fun s => isSessionValid s 28740000) = some false ∧
    getCurrentUser freshLoginState 28740000 = none ∧
    getCurrentUser freshLoginState 0 =
      some (mapStoredUserToUser (defaultAdminUser 0)) := by
  decide

/-- C3 as amended: for a session created at `T`, validity at check time `t`
is exactly `t < T + 8h ∧ t - lastActivity < 2h`.  With `lastActivity` never
refreshed (and nothing in the code refreshes it), the inactivity bound
triggers first: the session is valid at `T + 1h59m`, invalid at `T + 2h1m`,
and in particular already invalid at `T + 7h59m`; with `lastActivity`
refreshed at `T + 7h30m` it is valid at `T + 7h59m` yet still invalid at
`T + 8h1m`, the absolute bound. -/
theorem c3_session_validity_amended :
    (∀ (st : AuthState) (now : Nat) (u : StoredUser) (t : Nat),
      isSessionValid (createSessionFn st now u).1 t = true ↔
        t < now + 28800000 ∧ t - now < 7200000) ∧
    (∀ (st : AuthState) (now : Nat) (u : StoredUser),
      isSessionValid (createSessionFn st now u).1 (now + 7140000) = true ∧
      isSessionValid (createSessionFn st now u).1 (now + 7260000) = false ∧
      isSessionValid (createSessionFn st now u).1 (now + 28740000) = false ∧
      isSessionValid (createSessionFn st now u).1 (now + 28860000) = false ∧
      isSessionValid
        { (createSessionFn st now u).1 with lastActivity := now + 27000000 }
        (now + 28740000) = true ∧
      isSessionValid
        { (createSessionFn st now u).1 with lastActivity := now + 27000000 }
        (now + 28860000) = false) := by
  constructor
  · intro st now u t
    simp [isSessionValid, createSessionFn]
  · intro st now u
    refine ⟨?_, ?_, ?_, ?_, ?_, ?_⟩ <;> simp [isSessionValid, createSessionFn]

/-! ### C4: username uniqueness among active users across reachable states -/

/-- The footprint of a stored user relevant to the uniqueness invariant:
id, username and active flag. -/
def profile (u : StoredUser) : Nat × String × Bool :=
  (u.id, u.username, u.isActive)

/-- No two active stored users share a username. -/
def activeUsernamesUnique (users : List StoredUser) : Prop :=
  users.Pairwise
    (fun a b => a.isActive = true → b.isActive = true → a.username ≠ b.username)

/-- The inductive invariant: stored ids are duplicate-free, every stored id
is below `nextId`, and active usernames are unique. -/
def authInv (st : AuthState) : Prop :=
  (st.users.map (fun u => u.id)).Nodup ∧
  (∀ u ∈ st.users, u.id < st.nextId) ∧
  activeUsernamesUnique st.users

/-- Replacing a list element by one with the same profile keeps the profile
image of the list. -/
theorem map_profile_set (l : List StoredUser) :
    ∀ (i : Nat) (v u' : StoredUser), l.get? i = some v →
      profile v = profile u' →
      (l.set i u').map profile = l.map profile := by
  induction l with
  | nil => intro i v u' h _; cases h
  | cons x xs ih =>
    intro i v u' h hp
    cases i with
    | zero =>
      have hx : x = v := by simpa using h
      subst hx
      simp only [List.set, List.map_cons]
      rw [← hp]
    | succ j =>
      have h' : xs.get? j = some v := h
      simp only [List.set, List.map_cons]
      rw [ih j v u' h' hp]

/-- `updateStoredUser` with a record whose profile matches a stored member
(of duplicate-free ids) keeps the profile image of the store. -/
theorem updateStoredUserL_profile (l : List StoredUser) (u u' : StoredUser)
    (hN : (l.map (fun x => x.id)).Nodup) (hm : u ∈ l)
    (hp : profile u' = profile u) :
    (updateStoredUserL l u').map profile = l.map profile := by
  unfold updateStoredUserL
  cases hidx : findIdxA (fun x => x.id == u'.id) l with
  | none => rfl
  | some i =>
    obtain ⟨v, hget, hpred⟩ := findIdxA_some l _ i hidx
    have hvid : v.id = u.id := by
      have h1 : v.id = u'.id := by simpa using hpred
      rw [h1]
      exact congrArg Prod.fst hp
    have hvu : v = u :=
      eq_of_mem_nodup_id l hN v u (List.get?_mem hget) hm hvid
    refine map_profile_set l i v u' hget ?_
    rw [hvu]
    exact hp.symm

/-- Spreading a whole user object over any record yields that object. -/
theorem applyPatch_fullPatch (x u : StoredUser) :
    applyPatch x (fullPatch u) = u := rfl

/-- The public `updateUser` never changes `nextId`. -/
theorem updateUserFn_nextId (st : AuthState) (now : Nat) (p : UserPatch) :
    (updateUserFn st now p).2.nextId = st.nextId := by
  unfold updateUserFn
  split
  · rfl
  · split
    · rfl
    · split
      · rfl
      · rfl

/-- The public `updateUser` applied to a whole user object whose profile
matches a stored member keeps the profile image of the store. -/
theorem updateUserFn_full_profile (st : AuthState) (now : Nat)
    (u u' : StoredUser)
    (hN : (st.users.map (fun x => x.id)).Nodup) (hm : u ∈ st.users)
    (hp : profile u' = profile u) :
    ((updateUserFn st now (fullPatch u')).2.users).map profile =
      st.users.map profile := by
  unfold updateUserFn
  split
  · rfl
  · split
    · rfl
    · split
      · rfl
      · next i hidx =>
          obtain ⟨v, hget, hpred⟩ := findIdxA_some _ _ _ hidx
          dsimp only
          rw [getD_of_get? _ _ _ hget, applyPatch_fullPatch]
          have hvid : v.id = u.id := by
            have h1 : v.id = u'.id := by simpa [fullPatch] using hpred
            rw [h1]
            exact congrArg Prod.fst hp
          have hvu : v = u :=
            eq_of_mem_nodup_id _ hN v u (List.get?_mem hget) hm hvid
          refine map_profile_set _ i v u' hget ?_
          rw [hvu]
          exact hp.symm

/-- The invariant only depends on the profile image of the store and on
`nextId`. -/
theorem authInv_of_profile (st st' : AuthState)
    (hu : st'.users.map profile = st.users.map profile)
    (hn : st'.nextId = st.nextId) (h : authInv st) : authInv st' := by
  have hids : st'.users.map (fun u => u.id) = st.users.map (fun u => u.id) := by
    have h1 := congrArg (List.map (fun q : Nat × String × Bool => q.1)) hu
    rw [List.map_map, List.map_map] at h1
    exact h1
  obtain ⟨h1, h2, h3⟩ := h
  refine ⟨by rw [hids]; exact h1, ?_, ?_⟩
  · intro v hv
    have hmem : v.id ∈ st'.users.map (fun u => u.id) :=
      List.mem_map_of_mem _ hv
    rw [hids] at hmem
    obtain ⟨w, hw, hwid⟩ := List.mem_map.mp hmem
    rw [hn, ← hwid]
    exact h2 w hw
  · have hS : (st.users.map profile).Pairwise
        (fun a b => a.2.2 = true → b.2.2 = true → a.2.1 ≠ b.2.1) := by
      rw [List.pairwise_map]
      exact h3
    rw [← hu, List.pairwise_map] at hS
    exact hS

/-- The failed-password tail of `login` keeps the profile image of the store
and `nextId`. -/
theorem loginFailUpdate_state (st : AuthState) (now : Nat) (user : StoredUser)
    (hN : (st.users.map (fun x => x.id)).Nodup) (hm : user ∈ st.users) :
    ((loginFailUpdate st now user).2.users).map profile =
      st.users.map profile ∧
    (loginFailUpdate st now user).2.nextId = st.nextId := by
  refine ⟨?_, rfl⟩
  have he : (loginFailUpdate st now user).2.users =
      updateStoredUserL st.users
        (if 5 ≤ user.failedLoginAttempts + 1 then
           { user with failedLoginAttempts := user.failedLoginAttempts + 1,
                       lockedUntil := some (now + 30 * 60 * 1000) }
         else { user with failedLoginAttempts := user.failedLoginAttempts + 1 }) :=
    rfl
  rw [he]
  by_cases h5 : 5 ≤ user.failedLoginAttempts + 1
  · rw [if_pos h5]
    exact updateStoredUserL_profile st.users user _ hN hm rfl
  · rw [if_neg h5]
    exact updateStoredUserL_profile st.users user _ hN hm rfl

/-- `login` keeps the profile image of the store (so usernames, ids and
active flags of stored users) and `nextId`, whatever its outcome. -/
theorem loginFn_state (st : AuthState) (now : Nat) (un pw : String)
    (hN : (st.users.map (fun x => x.id)).Nodup) :
    ((loginFn st now un pw).2.users).map profile = st.users.map profile ∧
    (loginFn st now un pw).2.nextId = st.nextId := by
  unfold loginFn
  split
  · exact ⟨rfl, rfl⟩
  · split
    · exact ⟨rfl, rfl⟩
    · next rate1 hrl =>
        split
        · exact ⟨rfl, rfl⟩
        · next user hf =>
            have hm : user ∈ st.users := List.mem_of_find?_eq_some hf
            split
            · exact ⟨rfl, rfl⟩
            · split
              · constructor
                · exact updateUserFn_full_profile { st with rate := rate1 } now
                    user _ hN hm rfl
                · exact updateUserFn_nextId { st with rate := rate1 } now _
              · exact loginFailUpdate_state { st with rate := rate1 } now user hN hm

/-- `changePassword` keeps the profile image of the store and `nextId`. -/
theorem changePasswordFn_state (st : AuthState) (now : Nat) (uid : Nat)
    (oldP newP : String)
    (hN : (st.users.map (fun x => x.id)).Nodup) :
    (((changePasswordFn st now uid oldP newP).2).users).map profile =
      st.users.map profile ∧
    (changePasswordFn st now uid oldP newP).2.nextId = st.nextId := by
  unfold changePasswordFn
  split
  · exact ⟨rfl, rfl⟩
  · split
    · exact ⟨rfl, rfl⟩
    · split
      · exact ⟨rfl, rfl⟩
      · next user hf =>
          have hm : user ∈ st.users := List.mem_of_find?_eq_some hf
          split
          · exact ⟨rfl, rfl⟩
          · split
            · exact ⟨rfl, rfl⟩
            · constructor
              · exact updateUserFn_full_profile st now user _ hN hm rfl
              · exact updateUserFn_nextId st now _

/-- `createUser` preserves the invariant: it either fails without mutating
the store, or appends a user with the fresh id `nextId` and a username that
no stored user holds. -/
theorem createUserFn_inv (st : AuthState) (now : Nat) (un : String)
    (em : Option String) (pw : String) (r : Role)
    (ac : Option (List String)) (h : authInv st) :
    authInv (createUserFn st now un em pw r ac).2 := by
  unfold createUserFn
  split
  · exact h
  · split
    · exact h
    · split
      · exact h
      · split
        · exact h
        · split
          · exact h
          · split
            · exact h
            · next h5 =>
              dsimp only
              obtain ⟨hN, hBound, hUniq⟩ := h
              have hnot : ∀ v ∈ st.users, v.username ≠ un := by
                intro v hv hq
                exact h5 (List.any_eq_true.mpr ⟨v, hv, by simp [hq]⟩)
              refine ⟨?_, ?_, ?_⟩
              · rw [List.map_append, List.nodup_append]
                refine ⟨hN, List.nodup_singleton _, ?_⟩
                intro a ha hb
                have hb' : a = st.nextId := by simpa using hb
                obtain ⟨w, hw, hwid⟩ := List.mem_map.mp ha
                have hlt := hBound w hw
                omega
              · intro v hv
                rcases List.mem_append.mp hv with hv' | hv'
                · exact Nat.lt_succ_of_lt (hBound v hv')
                · have he : v = _ := List.mem_singleton.mp hv'
                  rw [he]
                  exact Nat.lt_succ_self _
              · refine List.pairwise_append.mpr
                  ⟨hUniq, List.pairwise_singleton _ _, ?_⟩
                intro a ha b hb
                have hbe : b = _ := List.mem_singleton.mp hb
                rw [hbe]
                intro _ _
                exact hnot a ha

/-- One public operation other than `updateUser` preserves the invariant. -/
theorem stepOp_inv (st : AuthState) (now : Nat) (op : Op)
    (hop : op.isUpdateUser = false) (h : authInv st) :
    authInv (stepOp st now op) := by
  cases op with
  | login u p =>
    have hs := loginFn_state st now u p h.1
    exact authInv_of_profile st (loginFn st now u p).2 hs.1 hs.2 h
  | logout =>
    unfold stepOp logoutFn
    cases hc : st.currentSession with
    | none => exact h
    | some s => exact authInv_of_profile st _ rfl rfl h
  | createUser u e p r a => exact createUserFn_inv st now u e p r a h
  | updateUser p => simp [Op.isUpdateUser] at hop
  | changePassword i o n =>
    have hs := changePasswordFn_state st now i o n h.1
    exact authInv_of_profile st (changePasswordFn st now i o n).2 hs.1 hs.2 h

/-- Any sequence of public operations avoiding `updateUser` preserves the
invariant. -/
theorem runOps_inv (ops : List (Nat × Op)) :
    ∀ st : AuthState, authInv st →
      (∀ q ∈ ops, q.2.isUpdateUser = false) →
      authInv (runOps st ops) := by
  induction ops with
  | nil => intro st h _; exact h
  | cons q rest ih =>
    intro st h hall
    exact ih (stepOp st q.1 q.2)
      (stepOp_inv st q.1 q.2 (hall q (List.mem_cons_self q rest)) h)
      (fun r hr => hall r (List.mem_cons_of_mem q hr))

/-- The bootstrap state satisfies the invariant. -/
theorem authInv_boot (t0 : Nat) : authInv (bootState t0) := by
  refine ⟨List.nodup_singleton _, ?_, List.pairwise_singleton _ _⟩
  intro u hu
  have he : u = defaultAdminUser t0 := List.mem_singleton.mp hu
  rw [he]
  exact Nat.one_lt_two

/-- Executable check of active-username uniqueness, for concrete states. -/
def activeUniqueB : List StoredUser → Bool
  | [] => true
  | u :: rest =>
    (!u.isActive || rest.all (fun v => !v.isActive || u.username != v.username)) &&
    activeUniqueB rest

/-- The executable check agrees with the uniqueness predicate. -/
theorem activeUniqueB_eq_true_iff (l : List StoredUser) :
    activeUniqueB l = true ↔ activeUsernamesUnique l := by
  induction l with
  | nil =>
    simp [activeUniqueB, activeUsernamesUnique]
  | cons u rest ih =>
    rw [activeUniqueB, Bool.and_eq_true, ih]
    show _ ↔ (u :: rest).Pairwise _
    rw [List.pairwise_cons]
    constructor
    · rintro ⟨h1, h2⟩
      refine ⟨?_, h2⟩
      intro b hb hact hbact
      rw [Bool.or_eq_true] at h1
      rcases h1 with hfalse | hall
      · rw [Bool.not_eq_true'] at hfalse
        rw [hact] at hfalse
        cases hfalse
      · rw [List.all_eq_true] at hall
        have hbs := hall b hb
        rw [Bool.or_eq_true] at hbs
        rcases hbs with hbf | hne
        · rw [Bool.not_eq_true'] at hbf
          rw [hbact] at hbf
          cases hbf
        · exact bne_iff_ne.mp hne
    · rintro ⟨h1, h2⟩
      refine ⟨?_, h2⟩
      rw [Bool.or_eq_true]
      by_cases hu : u.isActive = true
      · right
        rw [List.all_eq_true]
        intro v hv
        rw [Bool.or_eq_true]
        by_cases hv' : v.isActive = true
        · right
          exact bne_iff_ne.mpr (h1 v hv hu hv')
        · left
          rw [Bool.not_eq_true']
          revert hv'
          cases v.isActive <;> simp
      · left
        rw [Bool.not_eq_true']
        revert hu
        cases u.isActive <;> simp

/-- A sequence of public operations breaking the uniqueness claim: the admin
logs in, creates `bob`, then renames `bob` to `admin` through `updateUser`
(which performs no uniqueness check). -/
def c4BreakOps : List (Nat × Op) :=
  [(0, .login "admin" "admin123"),
   (1, .createUser "bob" none "Val1dPw!" .technician none),
   (2, .updateUser { id := 2, username := some "admin" })]

/-- Counterexample for C4: the state reached from bootstrap by the concrete
operation sequence `c4BreakOps` — an `updateUser` call renaming an active
user to an existing active username — holds two active stored users both
named `admin`, so username uniqueness among active users is not an invariant
of the full operation set. -/
theorem c4_uniqueness_counterexample :
    ¬ activeUsernamesUnique (runOps (bootState 0) c4BreakOps).users := by
  intro h
  have hb : activeUniqueB (runOps (bootState 0) c4BreakOps).users = false := by
    decide
  rw [← activeUniqueB_eq_true_iff, hb] at h
  cases h

/-- C4 as amended: username uniqueness among active stored users holds in
every state reachable from the bootstrap state by sequences of `login`,
`logout`, `createUser` and `changePassword`; it is `updateUser` — whose
field merge performs no uniqueness check — that can break it. -/
theorem c4_uniqueness_amended (t0 : Nat) (ops : List (Nat × Op))
    (h : ∀ q ∈ ops, q.2.isUpdateUser = false) :
    activeUsernamesUnique (runOps (bootState t0) ops).users :=
  (runOps_inv ops (bootState t0) (authInv_boot t0) h).2.2

/-- An `updateUser`-free operation sequence for the C4 witness. -/
def c4SafeOps : List (Nat × Op) :=
  [(0, .login "admin" "admin123"),
   (1, .createUser "bob" none "Val1dPw!" .technician none)]

/-- Witness for the amended C4 on a concrete `updateUser`-free sequence. -/
theorem c4_uniqueness_amended_witness :
    (∀ q ∈ c4SafeOps, q.2.isUpdateUser = false) ∧
    activeUsernamesUnique (runOps (bootState 0) c4SafeOps).users :=
  ⟨by decide, c4_uniqueness_amended 0 c4SafeOps (by decide)⟩
